import Mathlib

/-!
Verification of the portfolio store (`src/portfolio-manager/src/store/portfolioStore.ts`).

The store holds three record collections (accounts, transactions, budgets),
exposes CRUD mutations and derived queries, and persists the three collections
to localStorage as JSON.

Modelling conventions:
* JavaScript numbers used as currency amounts are modelled as `Rat`
  (the spec describes them as signed decimal amounts; only `+`, `abs` and
  comparisons occur, so the float/rational distinction is immaterial here).
* A JavaScript `Date` is its time value: milliseconds since the Unix epoch,
  modelled as `Int` (`Date` comparison compares time values).  The host clock
  offset is taken to be UTC, and a single instant `now` stands for the two
  back-to-back `new Date()` calls in `getCategorySpending`.
* `crypto.randomUUID()` is modelled by passing the generated id explicitly.
* A TypeScript `Partial<T>` is a structure of `Option` fields; the object
  spread `\x7b ...record, ...updates \x7d` is field-wise `Option.getD`.
-/

namespace Portfolio

/-- `Account.type` union: 'checking' | 'savings' | 'investment' | 'credit'. -/
inductive AccountType where
  | checking
  | savings
  | investment
  | credit
deriving DecidableEq, Repr

/-- `Transaction.type` union: 'income' | 'expense' | 'transfer'. -/
inductive TxType where
  | income
  | expense
  | transfer
deriving DecidableEq, Repr

/-- `Budget.period` union: 'monthly' | 'weekly' | 'yearly'. -/
inductive BudgetPeriod where
  | monthly
  | weekly
  | yearly
deriving DecidableEq, Repr

/-- interface Account. -/
structure Account where
  id : String
  name : String
  type : AccountType
  balance : Rat
  currency : String
deriving DecidableEq, Repr

/-- interface Transaction.  `date : Int` is the Date's time value (ms since epoch). -/
structure Transaction where
  id : String
  accountId : String
  amount : Rat
  description : String
  category : String
  date : Int
  type : TxType
deriving DecidableEq, Repr

/-- interface Budget. -/
structure Budget where
  id : String
  category : String
  limit : Rat
  spent : Rat
  period : BudgetPeriod
deriving DecidableEq, Repr

/-- The data part of `PortfolioState` (the three collections). -/
structure PortfolioState where
  accounts : List Account
  transactions : List Transaction
  budgets : List Budget
deriving DecidableEq, Repr

/-- `Omit<Account, 'id'>`: the argument of `addAccount`. -/
structure AccountInput where
  name : String
  type : AccountType
  balance : Rat
  currency : String
deriving DecidableEq, Repr

/-- `Omit<Transaction, 'id'>`: the argument of `addTransaction`. -/
structure TransactionInput where
  accountId : String
  amount : Rat
  description : String
  category : String
  date : Int
  type : TxType
deriving DecidableEq, Repr

/-- `Omit<Budget, 'id'>`: the argument of `addBudget`. -/
structure BudgetInput where
  category : String
  limit : Rat
  spent : Rat
  period : BudgetPeriod
deriving DecidableEq, Repr

/-- `Partial<Account>` (a field is `none` when absent from the update object). -/
structure AccountUpdate where
  id : Option String
  name : Option String
  type : Option AccountType
  balance : Option Rat
  currency : Option String
deriving DecidableEq, Repr

/-- `Partial<Transaction>`. -/
structure TransactionUpdate where
  id : Option String
  accountId : Option String
  amount : Option Rat
  description : Option String
  category : Option String
  date : Option Int
  type : Option TxType
deriving DecidableEq, Repr

/-- `Partial<Budget>`. -/
structure BudgetUpdate where
  id : Option String
  category : Option String
  limit : Option Rat
  spent : Option Rat
  period : Option BudgetPeriod
deriving DecidableEq, Repr

/-- Object spread `\x7b ...account, ...updates \x7d`. -/
def mergeAccount (account : Account) (updates : AccountUpdate) : Account :=
  { id := updates.id.getD account.id
    name := updates.name.getD account.name
    type := updates.type.getD account.type
    balance := updates.balance.getD account.balance
    currency := updates.currency.getD account.currency }

/-- Object spread `\x7b ...transaction, ...updates \x7d`. -/
def mergeTransaction (transaction : Transaction) (updates : TransactionUpdate) :
    Transaction :=
  { id := updates.id.getD transaction.id
    accountId := updates.accountId.getD transaction.accountId
    amount := updates.amount.getD transaction.amount
    description := updates.description.getD transaction.description
    category := updates.category.getD transaction.category
    date := updates.date.getD transaction.date
    type := updates.type.getD transaction.type }

/-- Object spread `\x7b ...budget, ...updates \x7d`. -/
def mergeBudget (budget : Budget) (updates : BudgetUpdate) : Budget :=
  { id := updates.id.getD budget.id
    category := updates.category.getD budget.category
    limit := updates.limit.getD budget.limit
    spent := updates.spent.getD budget.spent
    period := updates.period.getD budget.period }

/-- The object `\x7b ...account, id: crypto.randomUUID() \x7d` built by `addAccount`. -/
def buildAccount (account : AccountInput) (newId : String) : Account :=
  { id := newId, name := account.name, type := account.type,
    balance := account.balance, currency := account.currency }

/-- `addAccount`: append a new account built from the input plus the generated id. -/
def addAccount (s : PortfolioState) (account : AccountInput) (newId : String) :
    PortfolioState :=
  { s with accounts := s.accounts ++ [buildAccount account newId] }

/-- `updateAccount`: merge the updates onto the account whose id matches. -/
def updateAccount (s : PortfolioState) (id : String) (updates : AccountUpdate) :
    PortfolioState :=
  { s with accounts := s.accounts.map (fun account =>
      if account.id = id then mergeAccount account updates else account) }

/-- `deleteAccount`: keep the accounts whose id differs. -/
def deleteAccount (s : PortfolioState) (id : String) : PortfolioState :=
  { s with accounts := s.accounts.filter (fun account => account.id ≠ id) }

/-- The object `\x7b ...transaction, id: crypto.randomUUID() \x7d` built by
`addTransaction`. -/
def buildTransaction (transaction : TransactionInput) (newId : String) : Transaction :=
  { id := newId, accountId := transaction.accountId, amount := transaction.amount,
    description := transaction.description, category := transaction.category,
    date := transaction.date, type := transaction.type }

/-- `addTransaction`: append the new transaction and add its amount to the
balance of every account whose id equals the transaction's accountId. -/
def addTransaction (s : PortfolioState) (transaction : TransactionInput)
    (newId : String) : PortfolioState :=
  let newTransaction : Transaction := buildTransaction transaction newId
  let updatedAccounts := s.accounts.map (fun account =>
    if account.id = transaction.accountId then
      { account with balance := account.balance + transaction.amount }
    else account)
  { s with transactions := s.transactions ++ [newTransaction],
           accounts := updatedAccounts }

/-- `updateTransaction`: merge the updates onto the transaction whose id matches. -/
def updateTransaction (s : PortfolioState) (id : String)
    (updates : TransactionUpdate) : PortfolioState :=
  { s with transactions := s.transactions.map (fun transaction =>
      if transaction.id = id then mergeTransaction transaction updates
      else transaction) }

/-- `deleteTransaction`: keep the transactions whose id differs. -/
def deleteTransaction (s : PortfolioState) (id : String) : PortfolioState :=
  { s with transactions := s.transactions.filter (fun transaction =>
      transaction.id ≠ id) }

/-- The object `\x7b ...budget, id: crypto.randomUUID() \x7d` built by `addBudget`. -/
def buildBudget (budget : BudgetInput) (newId : String) : Budget :=
  { id := newId, category := budget.category, limit := budget.limit,
    spent := budget.spent, period := budget.period }

/-- `addBudget`: append a new budget built from the input plus the generated id. -/
def addBudget (s : PortfolioState) (budget : BudgetInput) (newId : String) :
    PortfolioState :=
  { s with budgets := s.budgets ++ [buildBudget budget newId] }

/-- `updateBudget`: merge the updates onto the budget whose id matches. -/
def updateBudget (s : PortfolioState) (id : String) (updates : BudgetUpdate) :
    PortfolioState :=
  { s with budgets := s.budgets.map (fun budget =>
      if budget.id = id then mergeBudget budget updates else budget) }

/-- `deleteBudget`: keep the budgets whose id differs. -/
def deleteBudget (s : PortfolioState) (id : String) : PortfolioState :=
  { s with budgets := s.budgets.filter (fun budget => budget.id ≠ id) }

/-- `getTotalBalance`: reduce over the accounts, accumulating balances from 0. -/
def getTotalBalance (s : PortfolioState) : Rat :=
  s.accounts.foldl (fun total account => total + account.balance) 0

/-- `getAccountBalance`: `accounts.find(...)`, then `account?.balance || 0`.
For a number, `x || 0` is `x` unless `x` is falsy (here only `0`), so the
fallback returns the balance itself in every present case. -/
def getAccountBalance (s : PortfolioState) (accountId : String) : Rat :=
  match s.accounts.find? (fun acc => acc.id = accountId) with
  | some account => if account.balance = 0 then 0 else account.balance
  | none => 0

/-- `getTransactionsByAccount`: filter by accountId, stored order. -/
def getTransactionsByAccount (s : PortfolioState) (accountId : String) :
    List Transaction :=
  s.transactions.filter (fun transaction => transaction.accountId = accountId)

/-! ### JavaScript `Date` semantics

`getCategorySpending` manipulates `Date` values through `getDate`/`setDate`,
`getMonth`/`setMonth`, `getFullYear`/`setFullYear` and `>=`.  ECMAScript defines
these on the time value (ms since epoch) through the proleptic Gregorian
calendar; `YearFromTime` is specified declaratively (the largest year whose
start is `≤ t`), so the executable inverse below is validated by the proved
round-trip `daysFromCivil_civilFromDays`.  Note `/` and `%` on `Int` are
Euclidean, i.e. floor division for the positive divisors used here, matching
ECMAScript's `floor` and non-negative `modulo`. -/

def msPerDay : Int := 86400000

/-- ECMAScript `Day(t) = floor(t / msPerDay)`. -/
def jsDay (t : Int) : Int := t / msPerDay

/-- ECMAScript `TimeWithinDay(t) = t modulo msPerDay` (non-negative). -/
def timeWithinDay (t : Int) : Int := t % msPerDay

/-- A proleptic Gregorian calendar date; `month` is 1-based. -/
structure CivilDate where
  year : Int
  month : Int
  day : Int
deriving DecidableEq, Repr

/-- Day number (days since 1970-01-01) of a Gregorian date with `month ∈ [1,12]`;
out-of-range `day` values offset linearly, as in ECMAScript `MakeDay`. -/
def daysFromCivil (year month day : Int) : Int :=
  let y := if month ≤ 2 then year - 1 else year
  let era := y / 400
  let yoe := y - era * 400
  let doy := (153 * (if month > 2 then month - 3 else month + 9) + 2) / 5 + day - 1
  let doe := yoe * 365 + yoe / 4 - yoe / 100 + doy
  era * 146097 + doe - 719468

/-- 400-year era containing day number `z` (eras count from 0000-03-01). -/
def eraOf (z : Int) : Int := (z + 719468) / 146097

/-- Day of era: offset of `z` within its 400-year era, in `[0, 146097)`. -/
def doeOf (z : Int) : Int := z + 719468 - eraOf z * 146097

/-- Floor-division candidate for the year of era (at most one too high). -/
def candOf (z : Int) : Int := if doeOf z / 365 ≤ 399 then doeOf z / 365 else 399

/-- Year of era: the candidate, corrected downwards when its March-first start
day exceeds the day of era. -/
def yoeOf (z : Int) : Int :=
  if 365 * candOf z + candOf z / 4 - candOf z / 100 ≤ doeOf z then candOf z
  else candOf z - 1

/-- Day of the March-first-based year, in `[0, 365]`. -/
def doyOf (z : Int) : Int := doeOf z - (365 * yoeOf z + yoeOf z / 4 - yoeOf z / 100)

/-- Shifted month index (0 = March, ..., 11 = February). -/
def mpOf (z : Int) : Int := (5 * doyOf z + 2) / 153

/-- Day of month (1-based) of day number `z`. -/
def dayOf (z : Int) : Int := doyOf z - (153 * mpOf z + 2) / 5 + 1

/-- Calendar month (1-based) of day number `z`. -/
def monthOf (z : Int) : Int := if mpOf z < 10 then mpOf z + 3 else mpOf z - 9

/-- Calendar year of day number `z`. -/
def yearOf (z : Int) : Int :=
  if monthOf z ≤ 2 then yoeOf z + eraOf z * 400 + 1 else yoeOf z + eraOf z * 400

/-- Calendar date of a day number: the inverse of `daysFromCivil`, validated by
`daysFromCivil_civilFromDays`. -/
def civilFromDays (z : Int) : CivilDate :=
  { year := yearOf z, month := monthOf z, day := dayOf z }

/-- `Date.prototype.getFullYear`. -/
def jsGetFullYear (t : Int) : Int := (civilFromDays (jsDay t)).year

/-- `Date.prototype.getMonth` (0-based). -/
def jsGetMonth (t : Int) : Int := (civilFromDays (jsDay t)).month - 1

/-- `Date.prototype.getDate` (day of month, 1-based). -/
def jsGetDate (t : Int) : Int := (civilFromDays (jsDay t)).day

/-- ECMAScript `MakeDay(year, month, date)`: `month` is 0-based and arbitrary
(overflow rolls the year), `date` is arbitrary (offset from day 1). -/
def makeDay (year month date : Int) : Int :=
  daysFromCivil (year + month / 12) (month % 12 + 1) 1 + date - 1

/-- `Date.prototype.setDate(n)`: keep year/month/time, set the day of month. -/
def jsSetDate (t newDate : Int) : Int :=
  makeDay (jsGetFullYear t) (jsGetMonth t) newDate * msPerDay + timeWithinDay t

/-- `Date.prototype.setMonth(n)`: keep year/day/time, set the (0-based) month. -/
def jsSetMonth (t newMonth : Int) : Int :=
  makeDay (jsGetFullYear t) newMonth (jsGetDate t) * msPerDay + timeWithinDay t

/-- `Date.prototype.setFullYear(n)`: keep month/day/time, set the year. -/
def jsSetFullYear (t newYear : Int) : Int :=
  makeDay newYear (jsGetMonth t) (jsGetDate t) * msPerDay + timeWithinDay t

/-- The `'week' | 'month' | 'year'` union of `getCategorySpending`'s parameter. -/
inductive Period where
  | week
  | month
  | year
deriving DecidableEq, Repr

/-- The `switch (period)` of `getCategorySpending`: `startDate` starts as a copy
of `now` and one calendar field is set (`default` covers `'month'`). -/
def startDate (now : Int) (period : Period) : Int :=
  match period with
  | Period.week => jsSetDate now (jsGetDate now - 7)
  | Period.year => jsSetFullYear now (jsGetFullYear now - 1)
  | Period.month => jsSetMonth now (jsGetMonth now - 1)

/-- `getCategorySpending(category, period = 'month')`: filter by exact category,
expense type and `date >= startDate`, then reduce adding `Math.abs(amount)`.
`period = none` models the absent optional argument (default `'month'`);
`now` is the instant of the `new Date()` calls. -/
def getCategorySpending (s : PortfolioState) (category : String)
    (period : Option Period) (now : Int) : Rat :=
  let sd := startDate now (period.getD Period.month)
  (s.transactions.filter (fun transaction =>
      decide (transaction.category = category ∧
        transaction.type = TxType.expense ∧ sd ≤ transaction.date))).foldl
    (fun total transaction => total + |transaction.amount|) 0

/-! ### Calendar correctness -/

/-- Arithmetic core: the corrected year-of-era candidate lies in `[0, 399]` and
its March-first start day brackets the day of era within a year's length. -/
theorem yoe_spec (doe cand yoe : Int) (h0 : 0 ≤ doe) (h1 : doe < 146097)
    (hc : cand = if doe / 365 ≤ 399 then doe / 365 else 399)
    (hy : yoe = if 365 * cand + cand / 4 - cand / 100 ≤ doe then cand else cand - 1) :
    0 ≤ yoe ∧ yoe ≤ 399 ∧ 365 * yoe + yoe / 4 - yoe / 100 ≤ doe ∧
      doe - (365 * yoe + yoe / 4 - yoe / 100) ≤ 365 := by
  split_ifs at hc hy <;> subst hy <;> subst hc <;> omega

/-- Arithmetic core: month and day extracted from a day of year in `[0, 365]`
are in range and the day-of-year formula of `daysFromCivil` inverts them. -/
theorem month_day_spec (doy mp day month : Int) (h0 : 0 ≤ doy) (h1 : doy ≤ 365)
    (hmp : mp = (5 * doy + 2) / 153)
    (hd : day = doy - (153 * mp + 2) / 5 + 1)
    (hm : month = if mp < 10 then mp + 3 else mp - 9) :
    1 ≤ month ∧ month ≤ 12 ∧ 1 ≤ day ∧ day ≤ 31 ∧
      (153 * (if month > 2 then month - 3 else month + 9) + 2) / 5 + day - 1 = doy ∧
      (month ≤ 2 ↔ 10 ≤ mp) := by
  split_ifs at hm <;> split_ifs <;> omega

theorem doeOf_nonneg (z : Int) : 0 ≤ doeOf z := by
  rw [doeOf, eraOf]; omega

theorem doeOf_lt (z : Int) : doeOf z < 146097 := by
  rw [doeOf, eraOf]; omega

theorem yoeOf_spec (z : Int) :
    0 ≤ yoeOf z ∧ yoeOf z ≤ 399 ∧
      365 * yoeOf z + yoeOf z / 4 - yoeOf z / 100 ≤ doeOf z ∧
      doeOf z - (365 * yoeOf z + yoeOf z / 4 - yoeOf z / 100) ≤ 365 :=
  yoe_spec (doeOf z) (candOf z) (yoeOf z) (doeOf_nonneg z) (doeOf_lt z)
    (by rw [candOf]) (by rw [yoeOf])

theorem doyOf_spec (z : Int) : 0 ≤ doyOf z ∧ doyOf z ≤ 365 := by
  obtain ⟨h0, h1, h2, h3⟩ := yoeOf_spec z
  rw [doyOf]; omega

/-- Month/day ranges together with the inversion of the day-of-year formula. -/
theorem monthOf_spec (z : Int) :
    1 ≤ monthOf z ∧ monthOf z ≤ 12 ∧ 1 ≤ dayOf z ∧ dayOf z ≤ 31 ∧
      (153 * (if monthOf z > 2 then monthOf z - 3 else monthOf z + 9) + 2) / 5 +
        dayOf z - 1 = doyOf z ∧
      (monthOf z ≤ 2 ↔ 10 ≤ mpOf z) :=
  month_day_spec (doyOf z) (mpOf z) (dayOf z) (monthOf z) (doyOf_spec z).1
    (doyOf_spec z).2 (by rw [mpOf]) (by rw [dayOf]) (by rw [monthOf])

/-- `civilFromDays` produces an in-range calendar date and is a right inverse
of `daysFromCivil`: the executable field extraction is the calendar inverse of
the day-number map, so it correctly models ECMAScript's declaratively defined
`YearFromTime`/`MonthFromTime`/`DateFromTime`. -/
theorem daysFromCivil_civilFromDays (z : Int) :
    1 ≤ (civilFromDays z).month ∧ (civilFromDays z).month ≤ 12 ∧
      1 ≤ (civilFromDays z).day ∧ (civilFromDays z).day ≤ 31 ∧
      daysFromCivil (civilFromDays z).year (civilFromDays z).month
        (civilFromDays z).day = z := by
  obtain ⟨hy0, hy1, hy2, hy3⟩ := yoeOf_spec z
  obtain ⟨hm1, hm2, hd1, hd2, hinv, hiff⟩ := monthOf_spec z
  refine ⟨hm1, hm2, hd1, hd2, ?_⟩
  show daysFromCivil (yearOf z) (monthOf z) (dayOf z) = z
  have hyear : (if monthOf z ≤ 2 then yearOf z - 1 else yearOf z) =
      yoeOf z + eraOf z * 400 := by
    rw [yearOf]; split_ifs <;> omega
  have h400 : (yoeOf z + eraOf z * 400) / 400 = eraOf z := by omega
  have hdoy : doyOf z = doeOf z - (365 * yoeOf z + yoeOf z / 4 - yoeOf z / 100) := by
    rw [doyOf]
  have hdoe : doeOf z = z + 719468 - (z + 719468) / 146097 * 146097 := by
    rw [doeOf, eraOf]
  have hera : eraOf z = (z + 719468) / 146097 := by rw [eraOf]
  simp only [daysFromCivil]
  rw [hyear, hinv, h400]
  have hsub : yoeOf z + eraOf z * 400 - eraOf z * 400 = yoeOf z := by ring
  rw [hsub]
  clear hyear hinv hiff hm1 hm2 hd1 hd2
  omega

/-- `daysFromCivil` is linear in the day argument. -/
theorem daysFromCivil_day (y m d : Int) :
    daysFromCivil y m d = daysFromCivil y m 1 + d - 1 := by
  simp only [daysFromCivil]
  split_ifs <;> ring

/-- `makeDay` with an in-range (0-based) month. -/
theorem makeDay_eq_of_range (y m d : Int) (h0 : 0 ≤ m) (h1 : m ≤ 11) :
    makeDay y m d = daysFromCivil y (m + 1) 1 + d - 1 := by
  rw [makeDay]
  have h2 : m / 12 = 0 := by omega
  have h3 : m % 12 = m := by omega
  rw [h2, h3, add_zero]

/-- `makeDay` with month `-1` rolls back to December of the previous year. -/
theorem makeDay_neg_one (y d : Int) :
    makeDay y (-1) d = daysFromCivil (y - 1) 12 1 + d - 1 := by
  rw [makeDay]
  have h2 : (-1 : Int) / 12 = -1 := by decide
  have h3 : (-1 : Int) % 12 = 11 := by decide
  rw [h2, h3]
  have h4 : y + -1 = y - 1 := by ring
  have h5 : (11 : Int) + 1 = 12 := by decide
  rw [h4, h5]

/-- A time value decomposes into its day number and time within the day. -/
theorem jsDay_decomp (t : Int) : t = jsDay t * msPerDay + timeWithinDay t := by
  rw [jsDay, timeWithinDay, msPerDay]
  omega

/-- `setDate(getDate() - k)` shifts the time value by exactly `k` days. -/
theorem jsSetDate_sub (t k : Int) :
    jsSetDate t (jsGetDate t - k) = t - k * msPerDay := by
  obtain ⟨hm1, hm2, hd1, hd2, hrt⟩ := daysFromCivil_civilFromDays (jsDay t)
  rw [jsSetDate, jsGetFullYear, jsGetMonth, jsGetDate]
  rw [makeDay_eq_of_range _ _ _ (by omega) (by omega)]
  have hM : (civilFromDays (jsDay t)).month - 1 + 1 = (civilFromDays (jsDay t)).month := by
    ring
  rw [hM]
  have l2 := daysFromCivil_day (civilFromDays (jsDay t)).year
    (civilFromDays (jsDay t)).month (civilFromDays (jsDay t)).day
  have ht := jsDay_decomp t
  rw [msPerDay] at *
  omega

/-- The previous year's same (March-shifted) month starts at least 365 days
earlier. -/
theorem daysFromCivil_year_mono (y m : Int) (h1 : 1 ≤ m) (h2 : m ≤ 12) :
    daysFromCivil (y - 1) m 1 + 365 ≤ daysFromCivil y m 1 := by
  simp only [daysFromCivil]
  split_ifs <;> omega

/-- The previous month (within `[2,12]`) starts no later. -/
theorem daysFromCivil_month_mono (y m : Int) (h1 : 2 ≤ m) (h2 : m ≤ 12) :
    daysFromCivil y (m - 1) 1 ≤ daysFromCivil y m 1 := by
  simp only [daysFromCivil]
  split_ifs <;> omega

/-- December of the previous year starts no later than January. -/
theorem daysFromCivil_dec_mono (y : Int) :
    daysFromCivil (y - 1) 12 1 ≤ daysFromCivil y 1 1 := by
  simp only [daysFromCivil]
  split_ifs <;> omega

/-! ### Spec-side window definitions (for the refinement claim on
`getCategorySpending`): written from the spec's wording, independently of the
`setDate`/`setMonth`/`setFullYear` call chain used by the code. -/

/-- Spec wording: "now minus 7 days". -/
def sevenDaysEarlier (t : Int) : Int := t - 7 * msPerDay

/-- Spec wording: "now minus 1 calendar year": same month, day of month and
time of day with the year decremented; a day of month past the end of the
target month (Feb 29 of a leap year) rolls forward linearly. -/
def oneCalendarYearEarlier (t : Int) : Int :=
  (daysFromCivil ((civilFromDays (jsDay t)).year - 1) (civilFromDays (jsDay t)).month 1 +
      (civilFromDays (jsDay t)).day - 1) * msPerDay + timeWithinDay t

/-- Spec wording: "now minus 1 calendar month": same day of month and time of
day with the month decremented (January borrowing from the year); a day of
month past the end of the target month rolls forward linearly. -/
def oneCalendarMonthEarlier (t : Int) : Int :=
  (if (civilFromDays (jsDay t)).month = 1 then
      daysFromCivil ((civilFromDays (jsDay t)).year - 1) 12 1 +
        (civilFromDays (jsDay t)).day - 1
    else
      daysFromCivil (civilFromDays (jsDay t)).year ((civilFromDays (jsDay t)).month - 1) 1 +
        (civilFromDays (jsDay t)).day - 1) * msPerDay + timeWithinDay t

/-- The window start as the spec words it, per period ("any other value
including the default" is the `'month'` branch: the parameter's union type
admits no other value and its default is `'month'`). -/
def specWindowStart (now : Int) (period : Option Period) : Int :=
  match period.getD Period.month with
  | Period.week => sevenDaysEarlier now
  | Period.year => oneCalendarYearEarlier now
  | Period.month => oneCalendarMonthEarlier now

/-- The code's `setFullYear(getFullYear() - 1)` equals the spec's "one calendar
year earlier". -/
theorem jsSetFullYear_calendar (t : Int) :
    jsSetFullYear t (jsGetFullYear t - 1) = oneCalendarYearEarlier t := by
  obtain ⟨hm1, hm2, hd1, hd2, hrt⟩ := daysFromCivil_civilFromDays (jsDay t)
  rw [jsSetFullYear, jsGetFullYear, jsGetMonth, jsGetDate, oneCalendarYearEarlier]
  rw [makeDay_eq_of_range _ _ _ (by omega) (by omega)]
  have hM : (civilFromDays (jsDay t)).month - 1 + 1 = (civilFromDays (jsDay t)).month := by
    ring
  rw [hM]

/-- The code's `setMonth(getMonth() - 1)` equals the spec's "one calendar month
earlier". -/
theorem jsSetMonth_calendar (t : Int) :
    jsSetMonth t (jsGetMonth t - 1) = oneCalendarMonthEarlier t := by
  obtain ⟨hm1, hm2, hd1, hd2, hrt⟩ := daysFromCivil_civilFromDays (jsDay t)
  rw [jsSetMonth, jsGetFullYear, jsGetMonth, jsGetDate, oneCalendarMonthEarlier]
  by_cases hone : (civilFromDays (jsDay t)).month = 1
  · rw [if_pos hone, hone]
    have h1 : (1 : Int) - 1 - 1 = -1 := by decide
    rw [h1, makeDay_neg_one]
  · rw [if_neg hone]
    rw [makeDay_eq_of_range _ _ _ (by omega) (by omega)]
    have hM : (civilFromDays (jsDay t)).month - 1 - 1 + 1 =
        (civilFromDays (jsDay t)).month - 1 := by ring
    rw [hM]

/-- The code's window start equals the spec's window start, for every period
argument (present or defaulted). -/
theorem startDate_eq_specWindowStart (now : Int) (period : Option Period) :
    startDate now (period.getD Period.month) = specWindowStart now period := by
  rw [specWindowStart]
  cases period.getD Period.month with
  | week =>
      rw [startDate]
      have h := jsSetDate_sub now 7
      rw [h, sevenDaysEarlier]
  | year =>
      rw [startDate, jsSetFullYear_calendar]
  | month =>
      rw [startDate, jsSetMonth_calendar]

/-- The window start never lies after `now`, whatever the period. -/
theorem startDate_le (now : Int) (period : Period) :
    startDate now period ≤ now := by
  obtain ⟨hm1, hm2, hd1, hd2, hrt⟩ := daysFromCivil_civilFromDays (jsDay now)
  have hday := daysFromCivil_day (civilFromDays (jsDay now)).year
    (civilFromDays (jsDay now)).month (civilFromDays (jsDay now)).day
  have ht := jsDay_decomp now
  cases period with
  | week =>
      rw [startDate, jsSetDate_sub, msPerDay]
      omega
  | year =>
      rw [startDate, jsSetFullYear_calendar, oneCalendarYearEarlier]
      have hmono := daysFromCivil_year_mono (civilFromDays (jsDay now)).year
        (civilFromDays (jsDay now)).month hm1 hm2
      rw [msPerDay] at *
      omega
  | month =>
      rw [startDate, jsSetMonth_calendar, oneCalendarMonthEarlier]
      by_cases hone : (civilFromDays (jsDay now)).month = 1
      · rw [if_pos hone]
        have hmono := daysFromCivil_dec_mono (civilFromDays (jsDay now)).year
        rw [hone] at hday hrt
        rw [msPerDay] at *
        omega
      · rw [if_neg hone]
        have hmono := daysFromCivil_month_mono (civilFromDays (jsDay now)).year
          (civilFromDays (jsDay now)).month (by omega) hm2
        rw [msPerDay] at *
        omega

/-! ### List-level helper lemmas -/

theorem foldl_add_balance (l : List Account) (a : Rat) :
    l.foldl (fun total account => total + account.balance) a =
      a + (l.map Account.balance).sum := by
  induction l generalizing a with
  | nil => simp
  | cons x xs ih => rw [List.foldl_cons, ih, List.map_cons, List.sum_cons]; ring

theorem foldl_add_abs (l : List Transaction) (a : Rat) :
    l.foldl (fun total transaction => total + |transaction.amount|) a =
      a + (l.map (fun transaction => |transaction.amount|)).sum := by
  induction l generalizing a with
  | nil => simp
  | cons x xs ih => rw [List.foldl_cons, ih, List.map_cons, List.sum_cons]; ring

/-- `getTotalBalance` is the sum of the balances. -/
theorem getTotalBalance_eq (s : PortfolioState) :
    getTotalBalance s = (s.accounts.map Account.balance).sum := by
  rw [getTotalBalance, foldl_add_balance, zero_add]

/-- `getAccountBalance` returns the found account's balance or the 0 default
(the `|| 0` fallback is the identity on a present balance, 0 included). -/
theorem getAccountBalance_eq (s : PortfolioState) (aid : String) :
    getAccountBalance s aid =
      ((s.accounts.find? (fun acc => acc.id = aid)).map Account.balance).getD 0 := by
  rw [getAccountBalance]
  cases hf : s.accounts.find? (fun acc => acc.id = aid) with
  | none => rfl
  | some a =>
      simp only [Option.map_some', Option.getD_some]
      split_ifs with h
      · exact h.symm
      · rfl

theorem find?_update_accounts (l : List Account) (aid : String) (amt : Rat) :
    (l.map (fun account =>
        if account.id = aid then { account with balance := account.balance + amt }
        else account)).find? (fun acc => acc.id = aid) =
      (l.find? (fun acc => acc.id = aid)).map
        (fun acc => { acc with balance := acc.balance + amt }) := by
  induction l with
  | nil => rfl
  | cons a as ih =>
      by_cases h : a.id = aid
      · simp [List.find?_cons, h]
      · simp [List.find?_cons, h, ih]

theorem map_update_accounts_no_match (l : List Account) (i : String)
    (u : AccountUpdate) (h : ∀ a ∈ l, a.id ≠ i) :
    l.map (fun account => if account.id = i then mergeAccount account u
      else account) = l := by
  induction l with
  | nil => rfl
  | cons a as ih =>
      rw [List.map_cons, if_neg (h a (List.mem_cons_self a as)),
        ih (fun x hx => h x (List.mem_cons_of_mem a hx))]

theorem map_update_transactions_no_match (l : List Transaction) (i : String)
    (u : TransactionUpdate) (h : ∀ t ∈ l, t.id ≠ i) :
    l.map (fun transaction => if transaction.id = i then
      mergeTransaction transaction u else transaction) = l := by
  induction l with
  | nil => rfl
  | cons a as ih =>
      rw [List.map_cons, if_neg (h a (List.mem_cons_self a as)),
        ih (fun x hx => h x (List.mem_cons_of_mem a hx))]

theorem map_update_budgets_no_match (l : List Budget) (i : String)
    (u : BudgetUpdate) (h : ∀ b ∈ l, b.id ≠ i) :
    l.map (fun budget => if budget.id = i then mergeBudget budget u
      else budget) = l := by
  induction l with
  | nil => rfl
  | cons a as ih =>
      rw [List.map_cons, if_neg (h a (List.mem_cons_self a as)),
        ih (fun x hx => h x (List.mem_cons_of_mem a hx))]

theorem filter_accounts_no_match (l : List Account) (i : String)
    (h : ∀ a ∈ l, a.id ≠ i) :
    l.filter (fun account => account.id ≠ i) = l :=
  List.filter_eq_self.mpr (fun a ha => by simpa using h a ha)

theorem filter_transactions_no_match (l : List Transaction) (i : String)
    (h : ∀ t ∈ l, t.id ≠ i) :
    l.filter (fun transaction => transaction.id ≠ i) = l :=
  List.filter_eq_self.mpr (fun a ha => by simpa using h a ha)

theorem filter_budgets_no_match (l : List Budget) (i : String)
    (h : ∀ b ∈ l, b.id ≠ i) :
    l.filter (fun budget => budget.id ≠ i) = l :=
  List.filter_eq_self.mpr (fun a ha => by simpa using h a ha)

/-! ### Claims -/

/-- C1: in every state containing an account with id `A`, `addTransaction` on
an input with accountId `A` and amount `X` appends exactly the new transaction
to the transaction collection and raises `getAccountBalance A` by `X`, for any
sign of `X`. -/
theorem C1_addTransaction_appends_and_adjusts_balance (s : PortfolioState)
    (tx : TransactionInput) (newId : String)
    (h : ∃ a ∈ s.accounts, a.id = tx.accountId) :
    (addTransaction s tx newId).transactions =
        s.transactions ++ [buildTransaction tx newId] ∧
      getAccountBalance (addTransaction s tx newId) tx.accountId =
        getAccountBalance s tx.accountId + tx.amount := by
  refine ⟨rfl, ?_⟩
  rw [getAccountBalance_eq, getAccountBalance_eq]
  have hacc : (addTransaction s tx newId).accounts =
      s.accounts.map (fun account =>
        if account.id = tx.accountId then
          { account with balance := account.balance + tx.amount }
        else account) := rfl
  rw [hacc, find?_update_accounts]
  obtain ⟨a, ha, haid⟩ := h
  have hsome : (s.accounts.find? (fun acc => acc.id = tx.accountId)).isSome :=
    List.find?_isSome.mpr ⟨a, ha, by simpa using haid⟩
  obtain ⟨b, hb⟩ := Option.isSome_iff_exists.mp hsome
  rw [hb]
  simp

/-- C1 witness: a one-account state, an expense of -89.50 on that account. -/
theorem C1_witness :
    (addTransaction
          ⟨[⟨"1", "Main Checking", AccountType.checking, 5420.50, "USD"⟩], [], []⟩
          ⟨"1", -89.50, "Grocery Store", "Food", 0, TxType.expense⟩ "t9").transactions =
        [] ++ [buildTransaction
          ⟨"1", -89.50, "Grocery Store", "Food", 0, TxType.expense⟩ "t9"] ∧
      getAccountBalance (addTransaction
          ⟨[⟨"1", "Main Checking", AccountType.checking, 5420.50, "USD"⟩], [], []⟩
          ⟨"1", -89.50, "Grocery Store", "Food", 0, TxType.expense⟩ "t9") "1" =
        getAccountBalance
          ⟨[⟨"1", "Main Checking", AccountType.checking, 5420.50, "USD"⟩], [], []⟩ "1" +
          (-89.50) :=
  C1_addTransaction_appends_and_adjusts_balance
    ⟨[⟨"1", "Main Checking", AccountType.checking, 5420.50, "USD"⟩], [], []⟩
    ⟨"1", -89.50, "Grocery Store", "Food", 0, TxType.expense⟩ "t9"
    ⟨⟨"1", "Main Checking", AccountType.checking, 5420.50, "USD"⟩, by simp, rfl⟩

/-- C2: deleting a stored transaction removes it from every subsequent
`getTransactionsByAccount` result and leaves the account collection (hence
every balance) unchanged; `updateTransaction` likewise never touches accounts,
even when amount or accountId change. -/
theorem C2_delete_update_leave_balances (s : PortfolioState) (i : String)
    (u : TransactionUpdate) (_present : ∃ t ∈ s.transactions, t.id = i) :
    (∀ aid : String, ∀ t ∈ getTransactionsByAccount (deleteTransaction s i) aid,
        t.id ≠ i) ∧
      (deleteTransaction s i).accounts = s.accounts ∧
      (∀ aid : String,
        getAccountBalance (deleteTransaction s i) aid = getAccountBalance s aid) ∧
      (updateTransaction s i u).accounts = s.accounts ∧
      (∀ aid : String,
        getAccountBalance (updateTransaction s i u) aid = getAccountBalance s aid) := by
  refine ⟨?_, rfl, fun aid => rfl, rfl, fun aid => rfl⟩
  intro aid t ht
  have h1 : t ∈ (deleteTransaction s i).transactions := (List.mem_filter.mp ht).1
  have h2 := (List.mem_filter.mp h1).2
  simpa using h2

/-- C2 witness: a two-transaction state; delete transaction "t1". -/
theorem C2_witness :
    (∀ aid : String, ∀ t ∈ getTransactionsByAccount
        (deleteTransaction
          ⟨[⟨"1", "Main", AccountType.checking, 10, "USD"⟩],
           [⟨"t1", "1", -5, "d", "c", 0, TxType.expense⟩,
            ⟨"t2", "1", 7, "d", "c", 0, TxType.income⟩], []⟩ "t1") aid,
        t.id ≠ "t1") ∧
      (deleteTransaction
          ⟨[⟨"1", "Main", AccountType.checking, 10, "USD"⟩],
           [⟨"t1", "1", -5, "d", "c", 0, TxType.expense⟩,
            ⟨"t2", "1", 7, "d", "c", 0, TxType.income⟩], []⟩ "t1").accounts =
        [⟨"1", "Main", AccountType.checking, 10, "USD"⟩] ∧
      (∀ aid : String, getAccountBalance
          (deleteTransaction
            ⟨[⟨"1", "Main", AccountType.checking, 10, "USD"⟩],
             [⟨"t1", "1", -5, "d", "c", 0, TxType.expense⟩,
              ⟨"t2", "1", 7, "d", "c", 0, TxType.income⟩], []⟩ "t1") aid =
          getAccountBalance
            ⟨[⟨"1", "Main", AccountType.checking, 10, "USD"⟩],
             [⟨"t1", "1", -5, "d", "c", 0, TxType.expense⟩,
              ⟨"t2", "1", 7, "d", "c", 0, TxType.income⟩], []⟩ aid) ∧
      (updateTransaction
          ⟨[⟨"1", "Main", AccountType.checking, 10, "USD"⟩],
           [⟨"t1", "1", -5, "d", "c", 0, TxType.expense⟩,
            ⟨"t2", "1", 7, "d", "c", 0, TxType.income⟩], []⟩ "t1"
          ⟨none, none, some 999, none, none, none, none⟩).accounts =
        [⟨"1", "Main", AccountType.checking, 10, "USD"⟩] ∧
      (∀ aid : String, getAccountBalance
          (updateTransaction
            ⟨[⟨"1", "Main", AccountType.checking, 10, "USD"⟩],
             [⟨"t1", "1", -5, "d", "c", 0, TxType.expense⟩,
              ⟨"t2", "1", 7, "d", "c", 0, TxType.income⟩], []⟩ "t1"
            ⟨none, none, some 999, none, none, none, none⟩) aid =
          getAccountBalance
            ⟨[⟨"1", "Main", AccountType.checking, 10, "USD"⟩],
             [⟨"t1", "1", -5, "d", "c", 0, TxType.expense⟩,
              ⟨"t2", "1", 7, "d", "c", 0, TxType.income⟩], []⟩ aid) :=
  C2_delete_update_leave_balances
    ⟨[⟨"1", "Main", AccountType.checking, 10, "USD"⟩],
     [⟨"t1", "1", -5, "d", "c", 0, TxType.expense⟩,
      ⟨"t2", "1", 7, "d", "c", 0, TxType.income⟩], []⟩ "t1"
    ⟨none, none, some 999, none, none, none, none⟩
    ⟨⟨"t1", "1", -5, "d", "c", 0, TxType.expense⟩, by simp, rfl⟩

theorem map_balance_no_match (l : List Account) (aid : String) (amt : Rat)
    (h : ∀ a ∈ l, a.id ≠ aid) :
    l.map (fun account => if account.id = aid then
      { account with balance := account.balance + amt } else account) = l := by
  induction l with
  | nil => rfl
  | cons a as ih =>
      rw [List.map_cons, if_neg (h a (List.mem_cons_self a as)),
        ih (fun x hx => h x (List.mem_cons_of_mem a hx))]

/-- C5: `addTransaction` with an accountId matching no account still appends
the transaction (length grows by one) and leaves the account collection
unchanged; the operation cannot fail. -/
theorem C5_addTransaction_orphan_tolerated (s : PortfolioState)
    (tx : TransactionInput) (newId : String)
    (h : ∀ a ∈ s.accounts, a.id ≠ tx.accountId) :
    (addTransaction s tx newId).transactions.length = s.transactions.length + 1 ∧
      (addTransaction s tx newId).accounts = s.accounts := by
  constructor
  · show (s.transactions ++ [buildTransaction tx newId]).length = _
    simp
  · exact map_balance_no_match s.accounts tx.accountId tx.amount h

/-- C5 witness: an account "1" exists but the transaction references "2". -/
theorem C5_witness :
    (addTransaction
          ⟨[⟨"1", "Main", AccountType.checking, 10, "USD"⟩], [], []⟩
          ⟨"2", -5, "d", "c", 0, TxType.expense⟩ "t1").transactions.length =
        ([] : List Transaction).length + 1 ∧
      (addTransaction
          ⟨[⟨"1", "Main", AccountType.checking, 10, "USD"⟩], [], []⟩
          ⟨"2", -5, "d", "c", 0, TxType.expense⟩ "t1").accounts =
        [⟨"1", "Main", AccountType.checking, 10, "USD"⟩] :=
  C5_addTransaction_orphan_tolerated
    ⟨[⟨"1", "Main", AccountType.checking, 10, "USD"⟩], [], []⟩
    ⟨"2", -5, "d", "c", 0, TxType.expense⟩ "t1" (by decide)

/-- C6: each mutation by id is a silent no-op when the id matches no record in
its targeted collection: the whole state is returned unchanged. -/
theorem C6_missing_id_noop (s : PortfolioState) (i : String) (u : AccountUpdate)
    (ut : TransactionUpdate) (ub : BudgetUpdate) :
    ((∀ a ∈ s.accounts, a.id ≠ i) →
        updateAccount s i u = s ∧ deleteAccount s i = s) ∧
      ((∀ t ∈ s.transactions, t.id ≠ i) →
        updateTransaction s i ut = s ∧ deleteTransaction s i = s) ∧
      ((∀ b ∈ s.budgets, b.id ≠ i) →
        updateBudget s i ub = s ∧ deleteBudget s i = s) := by
  refine ⟨fun h => ⟨?_, ?_⟩, fun h => ⟨?_, ?_⟩, fun h => ⟨?_, ?_⟩⟩
  · rw [updateAccount, map_update_accounts_no_match s.accounts i u h]
  · rw [deleteAccount, filter_accounts_no_match s.accounts i h]
  · rw [updateTransaction, map_update_transactions_no_match s.transactions i ut h]
  · rw [deleteTransaction, filter_transactions_no_match s.transactions i h]
  · rw [updateBudget, map_update_budgets_no_match s.budgets i ub h]
  · rw [deleteBudget, filter_budgets_no_match s.budgets i h]

/-- C6 witness: a one-record-per-collection state and the unknown id "zz". -/
theorem C6_witness :
    updateAccount
        ⟨[⟨"1", "Main", AccountType.checking, 10, "USD"⟩],
         [⟨"t1", "1", -5, "d", "c", 0, TxType.expense⟩],
         [⟨"b1", "c", 100, 0, BudgetPeriod.monthly⟩]⟩ "zz"
        ⟨none, some "x", none, none, none⟩ =
      ⟨[⟨"1", "Main", AccountType.checking, 10, "USD"⟩],
       [⟨"t1", "1", -5, "d", "c", 0, TxType.expense⟩],
       [⟨"b1", "c", 100, 0, BudgetPeriod.monthly⟩]⟩ ∧
    deleteAccount
        ⟨[⟨"1", "Main", AccountType.checking, 10, "USD"⟩],
         [⟨"t1", "1", -5, "d", "c", 0, TxType.expense⟩],
         [⟨"b1", "c", 100, 0, BudgetPeriod.monthly⟩]⟩ "zz" =
      ⟨[⟨"1", "Main", AccountType.checking, 10, "USD"⟩],
       [⟨"t1", "1", -5, "d", "c", 0, TxType.expense⟩],
       [⟨"b1", "c", 100, 0, BudgetPeriod.monthly⟩]⟩ ∧
    updateTransaction
        ⟨[⟨"1", "Main", AccountType.checking, 10, "USD"⟩],
         [⟨"t1", "1", -5, "d", "c", 0, TxType.expense⟩],
         [⟨"b1", "c", 100, 0, BudgetPeriod.monthly⟩]⟩ "zz"
        ⟨none, none, some 999, none, none, none, none⟩ =
      ⟨[⟨"1", "Main", AccountType.checking, 10, "USD"⟩],
       [⟨"t1", "1", -5, "d", "c", 0, TxType.expense⟩],
       [⟨"b1", "c", 100, 0, BudgetPeriod.monthly⟩]⟩ ∧
    deleteTransaction
        ⟨[⟨"1", "Main", AccountType.checking, 10, "USD"⟩],
         [⟨"t1", "1", -5, "d", "c", 0, TxType.expense⟩],
         [⟨"b1", "c", 100, 0, BudgetPeriod.monthly⟩]⟩ "zz" =
      ⟨[⟨"1", "Main", AccountType.checking, 10, "USD"⟩],
       [⟨"t1", "1", -5, "d", "c", 0, TxType.expense⟩],
       [⟨"b1", "c", 100, 0, BudgetPeriod.monthly⟩]⟩ ∧
    updateBudget
        ⟨[⟨"1", "Main", AccountType.checking, 10, "USD"⟩],
         [⟨"t1", "1", -5, "d", "c", 0, TxType.expense⟩],
         [⟨"b1", "c", 100, 0, BudgetPeriod.monthly⟩]⟩ "zz"
        ⟨none, none, some 1, none, none⟩ =
      ⟨[⟨"1", "Main", AccountType.checking, 10, "USD"⟩],
       [⟨"t1", "1", -5, "d", "c", 0, TxType.expense⟩],
       [⟨"b1", "c", 100, 0, BudgetPeriod.monthly⟩]⟩ ∧
    deleteBudget
        ⟨[⟨"1", "Main", AccountType.checking, 10, "USD"⟩],
         [⟨"t1", "1", -5, "d", "c", 0, TxType.expense⟩],
         [⟨"b1", "c", 100, 0, BudgetPeriod.monthly⟩]⟩ "zz" =
      ⟨[⟨"1", "Main", AccountType.checking, 10, "USD"⟩],
       [⟨"t1", "1", -5, "d", "c", 0, TxType.expense⟩],
       [⟨"b1", "c", 100, 0, BudgetPeriod.monthly⟩]⟩ := by
  have h := C6_missing_id_noop
    ⟨[⟨"1", "Main", AccountType.checking, 10, "USD"⟩],
     [⟨"t1", "1", -5, "d", "c", 0, TxType.expense⟩],
     [⟨"b1", "c", 100, 0, BudgetPeriod.monthly⟩]⟩ "zz"
    ⟨none, some "x", none, none, none⟩
    ⟨none, none, some 999, none, none, none, none⟩
    ⟨none, none, some 1, none, none⟩
  obtain ⟨ha, ht, hb⟩ := h
  obtain ⟨ha1, ha2⟩ := ha (by decide)
  obtain ⟨ht1, ht2⟩ := ht (by decide)
  obtain ⟨hb1, hb2⟩ := hb (by decide)
  exact ⟨ha1, ha2, ht1, ht2, hb1, hb2⟩

/-- A sequence of `addAccount` calls, each with its generated id. -/
def addAccounts (s : PortfolioState) (l : List (AccountInput × String)) :
    PortfolioState :=
  l.foldl (fun acc p => addAccount acc p.1 p.2) s

theorem addAccounts_accounts (s : PortfolioState) (l : List (AccountInput × String)) :
    (addAccounts s l).accounts = s.accounts ++ l.map (fun p => buildAccount p.1 p.2) := by
  induction l generalizing s with
  | nil => simp [addAccounts]
  | cons p ps ih =>
      have hstep : addAccounts s (p :: ps) = addAccounts (addAccount s p.1 p.2) ps := rfl
      rw [hstep, ih]
      simp [addAccount]

/-- C7: `getTotalBalance` is the sum of all account balances (0 when the
collection is empty), so after any sequence of `addAccount` calls from an
account-less state it equals the sum of the added balances. -/
theorem C7_getTotalBalance_sum (s₀ s : PortfolioState)
    (l : List (AccountInput × String)) (h0 : s₀.accounts = []) :
    getTotalBalance s = (s.accounts.map Account.balance).sum ∧
      (s.accounts = [] → getTotalBalance s = 0) ∧
      getTotalBalance (addAccounts s₀ l) = (l.map (fun p => p.1.balance)).sum := by
  refine ⟨getTotalBalance_eq s, fun he => ?_, ?_⟩
  · rw [getTotalBalance_eq, he]
    rfl
  · rw [getTotalBalance_eq, addAccounts_accounts, h0, List.nil_append,
      List.map_map]
    rfl

/-- C7 witness: two accounts added to the empty state. -/
theorem C7_witness :
    getTotalBalance ⟨[⟨"9", "X", AccountType.credit, 4, "USD"⟩], [], []⟩ =
        ([⟨"9", "X", AccountType.credit, 4, "USD"⟩].map Account.balance).sum ∧
      (([⟨"9", "X", AccountType.credit, 4, "USD"⟩] : List Account) = [] →
        getTotalBalance ⟨[⟨"9", "X", AccountType.credit, 4, "USD"⟩], [], []⟩ = 0) ∧
      getTotalBalance (addAccounts ⟨[], [], []⟩
          [(⟨"A", AccountType.checking, 3, "USD"⟩, "1"),
           (⟨"B", AccountType.savings, -2, "USD"⟩, "2")]) =
        (([(⟨"A", AccountType.checking, 3, "USD"⟩, "1"),
           (⟨"B", AccountType.savings, -2, "USD"⟩, "2")] :
            List (AccountInput × String)).map (fun p => p.1.balance)).sum :=
  C7_getTotalBalance_sum ⟨[], [], []⟩
    ⟨[⟨"9", "X", AccountType.credit, 4, "USD"⟩], [], []⟩
    [(⟨"A", AccountType.checking, 3, "USD"⟩, "1"),
     (⟨"B", AccountType.savings, -2, "USD"⟩, "2")] rfl

/-- C8: `getAccountBalance` returns the balance of the account with the given
id when it exists (uniquely), and 0 when no account carries the id; it is a
total function, so it cannot fail. -/
theorem C8_getAccountBalance_found_or_zero (s : PortfolioState) (aid : String)
    (a : Account) (ha : a ∈ s.accounts) (haid : a.id = aid)
    (huniq : ∀ b ∈ s.accounts, b.id = aid → b = a) :
    getAccountBalance s aid = a.balance ∧
      (∀ s' : PortfolioState, (∀ b ∈ s'.accounts, b.id ≠ aid) →
        getAccountBalance s' aid = 0) := by
  constructor
  · rw [getAccountBalance_eq]
    have hsome : (s.accounts.find? (fun acc => acc.id = aid)).isSome :=
      List.find?_isSome.mpr ⟨a, ha, by simpa using haid⟩
    obtain ⟨b, hb⟩ := Option.isSome_iff_exists.mp hsome
    have hbmem : b ∈ s.accounts := List.mem_of_find?_eq_some hb
    have hbid : b.id = aid := by simpa using List.find?_some hb
    rw [hb, huniq b hbmem hbid]
    rfl
  · intro s' h
    rw [getAccountBalance_eq]
    have hnone : s'.accounts.find? (fun acc => acc.id = aid) = none :=
      List.find?_eq_none.mpr (fun x hx => by simpa using h x hx)
    rw [hnone]
    rfl

/-- C8 witness: account "1" with balance 10 is found; the lookup in a state
without the id returns 0. -/
theorem C8_witness :
    getAccountBalance ⟨[⟨"1", "Main", AccountType.checking, 10, "USD"⟩], [], []⟩
        "1" = (10 : Rat) ∧
      (∀ s' : PortfolioState, (∀ b ∈ s'.accounts, b.id ≠ "1") →
        getAccountBalance s' "1" = 0) :=
  C8_getAccountBalance_found_or_zero
    ⟨[⟨"1", "Main", AccountType.checking, 10, "USD"⟩], [], []⟩ "1"
    ⟨"1", "Main", AccountType.checking, 10, "USD"⟩ (by simp) rfl
    (by intro b hb _hb2; simpa using hb)

/-- C9: the merge does not protect the id field: when the partial update
carries an id, the merged record takes it, so an update can rename a record
and can make two records in one collection share an id (shown concretely on
two accounts). -/
theorem C9_update_overwrites_id (s : PortfolioState) (i j : String)
    (u : AccountUpdate) (ut : TransactionUpdate) (ub : BudgetUpdate)
    (hu : u.id = some j) (hut : ut.id = some j) (hub : ub.id = some j) :
    (∀ a ∈ s.accounts, a.id = i →
        mergeAccount a u ∈ (updateAccount s i u).accounts ∧
          (mergeAccount a u).id = j) ∧
      (∀ t ∈ s.transactions, t.id = i →
        mergeTransaction t ut ∈ (updateTransaction s i ut).transactions ∧
          (mergeTransaction t ut).id = j) ∧
      (∀ b ∈ s.budgets, b.id = i →
        mergeBudget b ub ∈ (updateBudget s i ub).budgets ∧
          (mergeBudget b ub).id = j) ∧
      (updateAccount
          ⟨[⟨"1", "A", AccountType.checking, 0, "USD"⟩,
            ⟨"2", "B", AccountType.savings, 0, "USD"⟩], [], []⟩ "2"
          ⟨some "1", none, none, none, none⟩).accounts.map Account.id =
        ["1", "1"] := by
  refine ⟨fun a ha hai => ⟨?_, ?_⟩, fun t ht hti => ⟨?_, ?_⟩,
    fun b hb hbi => ⟨?_, ?_⟩, by decide⟩
  · have hmem : (if a.id = i then mergeAccount a u else a) ∈
        (updateAccount s i u).accounts := List.mem_map_of_mem _ ha
    rwa [if_pos hai] at hmem
  · simp [mergeAccount, hu]
  · have hmem : (if t.id = i then mergeTransaction t ut else t) ∈
        (updateTransaction s i ut).transactions := List.mem_map_of_mem _ ht
    rwa [if_pos hti] at hmem
  · simp [mergeTransaction, hut]
  · have hmem : (if b.id = i then mergeBudget b ub else b) ∈
        (updateBudget s i ub).budgets := List.mem_map_of_mem _ hb
    rwa [if_pos hbi] at hmem
  · simp [mergeBudget, hub]

/-- C9 witness: renaming transaction "t1" to id "t2" via the update object. -/
theorem C9_witness :
    (∀ a ∈ (⟨[⟨"1", "A", AccountType.checking, 0, "USD"⟩], [], []⟩ :
          PortfolioState).accounts, a.id = "1" →
        mergeAccount a ⟨some "9", none, none, none, none⟩ ∈
            (updateAccount ⟨[⟨"1", "A", AccountType.checking, 0, "USD"⟩], [], []⟩
              "1" ⟨some "9", none, none, none, none⟩).accounts ∧
          (mergeAccount a ⟨some "9", none, none, none, none⟩).id = "9") ∧
      (∀ t ∈ (⟨[⟨"1", "A", AccountType.checking, 0, "USD"⟩], [], []⟩ :
          PortfolioState).transactions, t.id = "1" →
        mergeTransaction t ⟨some "9", none, none, none, none, none, none⟩ ∈
            (updateTransaction ⟨[⟨"1", "A", AccountType.checking, 0, "USD"⟩], [], []⟩
              "1" ⟨some "9", none, none, none, none, none, none⟩).transactions ∧
          (mergeTransaction t ⟨some "9", none, none, none, none, none, none⟩).id = "9") ∧
      (∀ b ∈ (⟨[⟨"1", "A", AccountType.checking, 0, "USD"⟩], [], []⟩ :
          PortfolioState).budgets, b.id = "1" →
        mergeBudget b ⟨some "9", none, none, none, none⟩ ∈
            (updateBudget ⟨[⟨"1", "A", AccountType.checking, 0, "USD"⟩], [], []⟩
              "1" ⟨some "9", none, none, none, none⟩).budgets ∧
          (mergeBudget b ⟨some "9", none, none, none, none⟩).id = "9") ∧
      (updateAccount
          ⟨[⟨"1", "A", AccountType.checking, 0, "USD"⟩,
            ⟨"2", "B", AccountType.savings, 0, "USD"⟩], [], []⟩ "2"
          ⟨some "1", none, none, none, none⟩).accounts.map Account.id =
        ["1", "1"] :=
  C9_update_overwrites_id
    ⟨[⟨"1", "A", AccountType.checking, 0, "USD"⟩], [], []⟩ "1" "9"
    ⟨some "9", none, none, none, none⟩
    ⟨some "9", none, none, none, none, none, none⟩
    ⟨some "9", none, none, none, none⟩ rfl rfl rfl

/-- The spec's description of `getCategorySpending`: sum of `abs(amount)` over
the transactions matching the category exactly, typed expense, and dated at or
after the spec's window start. -/
def specCategorySpending (s : PortfolioState) (category : String)
    (period : Option Period) (now : Int) : Rat :=
  ((s.transactions.filter (fun transaction =>
      decide (transaction.category = category ∧
        transaction.type = TxType.expense ∧
        specWindowStart now period ≤ transaction.date))).map
    (fun transaction => |transaction.amount|)).sum

/-- C3: `getCategorySpending` computes exactly the spec's sum: abs-amounts of
the exact-category expense transactions dated at or after the window start,
where the window start is now minus 7 days for `'week'`, now minus one
calendar year for `'year'`, and now minus one calendar month for the default
(`'month'` or an absent argument — the parameter's union type admits no other
value). -/
theorem C3_getCategorySpending_correct (s : PortfolioState) (category : String)
    (period : Option Period) (now : Int) :
    getCategorySpending s category period now =
      specCategorySpending s category period now := by
  rw [specCategorySpending]
  simp only [getCategorySpending]
  rw [foldl_add_abs, startDate_eq_specWindowStart, zero_add]

/-- C10: the date filter has no upper bound: a matching expense transaction
dated strictly after `now` is still counted, adding its absolute amount to the
result, for every period. -/
theorem C10_future_dated_included (s : PortfolioState) (category : String)
    (period : Option Period) (now : Int) (t : Transaction)
    (hcat : t.category = category) (hty : t.type = TxType.expense)
    (hfut : now < t.date) :
    getCategorySpending
        { s with transactions := s.transactions ++ [t] } category period now =
      getCategorySpending s category period now + |t.amount| := by
  simp only [getCategorySpending]
  rw [List.filter_append, List.foldl_append]
  have hsd := startDate_le now (period.getD Period.month)
  have hcond : startDate now (period.getD Period.month) ≤ t.date := by omega
  have hfil : ([t].filter (fun transaction =>
      decide (transaction.category = category ∧
        transaction.type = TxType.expense ∧
        startDate now (period.getD Period.month) ≤ transaction.date))) = [t] := by
    simp [hcat, hty, hcond]
  rw [hfil]
  rfl

/-- C10 witness: a transaction dated 1 ms after `now = 0` is counted in full. -/
theorem C10_witness :
    getCategorySpending
        ⟨[], ([] : List Transaction) ++
          [⟨"t1", "1", -5, "d", "Food", 1, TxType.expense⟩], []⟩ "Food" none 0 =
      getCategorySpending ⟨[], [], []⟩ "Food" none 0 +
        |(⟨"t1", "1", -5, "d", "Food", 1, TxType.expense⟩ : Transaction).amount| :=
  C10_future_dated_included ⟨[], [], []⟩ "Food" none 0
    ⟨"t1", "1", -5, "d", "Food", 1, TxType.expense⟩ rfl rfl (by decide)

/-! ### Persistence (`persist` middleware with `name: 'portfolio-storage'` and
`partialize`)

On every mutation the three collections are `JSON.stringify`-ed to
localStorage; on startup the snapshot is `JSON.parse`-d back.  Serialized text
round-trips to the same JSON value, so the text layer is modelled as the
identity on a JSON AST.  `JSON.stringify` serializes a `Date` through its
`toJSON` (= `toISOString`), producing a string; the configuration installs no
reviver or custom storage, so `JSON.parse` leaves that string a string.  A
rehydrated transaction's date field is therefore dynamically a string, modelled
by `DateField`. -/

/-- A JSON value. -/
inductive JValue where
  | jnull
  | jbool (b : Bool)
  | jstr (s : String)
  | jnum (q : Rat)
  | jarr (elems : List JValue)
  | jobj (fields : List (String × JValue))

/-- Runtime value of a rehydrated transaction's `date` property: a live `Date`
(its time value) before persistence, a plain string after `JSON.parse`. -/
inductive DateField where
  | asDate (time : Int)
  | asString (s : String)
deriving DecidableEq, Repr

/-- A transaction record whose `date` property is dynamically typed. -/
structure DynTransaction where
  id : String
  accountId : String
  amount : Rat
  description : String
  category : String
  date : DateField
  type : TxType
deriving DecidableEq, Repr

/-- The in-memory transaction as a dynamic record (its date is a `Date`). -/
def toDyn (t : Transaction) : DynTransaction :=
  ⟨t.id, t.accountId, t.amount, t.description, t.category,
    DateField.asDate t.date, t.type⟩

/-- The state shape produced by rehydration. -/
structure RehydratedState where
  accounts : List Account
  transactions : List DynTransaction
  budgets : List Budget
deriving DecidableEq, Repr

def pad2 (n : Int) : String :=
  if n < 10 then "0" ++ toString n else toString n

def pad3 (n : Int) : String :=
  if n < 10 then "00" ++ toString n
  else if n < 100 then "0" ++ toString n
  else toString n

def pad4 (n : Int) : String :=
  if n < 10 then "000" ++ toString n
  else if n < 100 then "00" ++ toString n
  else if n < 1000 then "0" ++ toString n
  else toString n

def pad6 (n : Int) : String :=
  if n < 10 then "00000" ++ toString n
  else if n < 100 then "0000" ++ toString n
  else if n < 1000 then "000" ++ toString n
  else if n < 10000 then "00" ++ toString n
  else if n < 100000 then "0" ++ toString n
  else toString n

/-- ISO 8601 year field: four digits for 0..9999, expanded form otherwise. -/
def isoYear (y : Int) : String :=
  if 0 ≤ y ∧ y ≤ 9999 then pad4 y
  else if y < 0 then "-" ++ pad6 (-y)
  else "+" ++ pad6 y

/-- `Date.prototype.toISOString` (UTC): `YYYY-MM-DDTHH:mm:ss.sssZ`. -/
def toISOString (t : Int) : String :=
  isoYear (civilFromDays (jsDay t)).year ++ "-" ++
    pad2 (civilFromDays (jsDay t)).month ++ "-" ++
    pad2 (civilFromDays (jsDay t)).day ++ "T" ++
    pad2 (timeWithinDay t / 3600000) ++ ":" ++
    pad2 (timeWithinDay t % 3600000 / 60000) ++ ":" ++
    pad2 (timeWithinDay t % 60000 / 1000) ++ "." ++
    pad3 (timeWithinDay t % 1000) ++ "Z"

def accountTypeString : AccountType → String
  | AccountType.checking => "checking"
  | AccountType.savings => "savings"
  | AccountType.investment => "investment"
  | AccountType.credit => "credit"

def decodeAccountType (s : String) : Option AccountType :=
  if s = "checking" then some AccountType.checking
  else if s = "savings" then some AccountType.savings
  else if s = "investment" then some AccountType.investment
  else if s = "credit" then some AccountType.credit
  else none

def txTypeString : TxType → String
  | TxType.income => "income"
  | TxType.expense => "expense"
  | TxType.transfer => "transfer"

def decodeTxType (s : String) : Option TxType :=
  if s = "income" then some TxType.income
  else if s = "expense" then some TxType.expense
  else if s = "transfer" then some TxType.transfer
  else none

def budgetPeriodString : BudgetPeriod → String
  | BudgetPeriod.monthly => "monthly"
  | BudgetPeriod.weekly => "weekly"
  | BudgetPeriod.yearly => "yearly"

def decodeBudgetPeriod (s : String) : Option BudgetPeriod :=
  if s = "monthly" then some BudgetPeriod.monthly
  else if s = "weekly" then some BudgetPeriod.weekly
  else if s = "yearly" then some BudgetPeriod.yearly
  else none

/-- `JSON.stringify` of an account. -/
def encodeAccount (a : Account) : JValue :=
  JValue.jobj [("id", JValue.jstr a.id), ("name", JValue.jstr a.name),
    ("type", JValue.jstr (accountTypeString a.type)),
    ("balance", JValue.jnum a.balance), ("currency", JValue.jstr a.currency)]

/-- `JSON.stringify` of a transaction: the `Date` goes through `toJSON`,
becoming its ISO string. -/
def encodeTransaction (t : Transaction) : JValue :=
  JValue.jobj [("id", JValue.jstr t.id), ("accountId", JValue.jstr t.accountId),
    ("amount", JValue.jnum t.amount),
    ("description", JValue.jstr t.description),
    ("category", JValue.jstr t.category),
    ("date", JValue.jstr (toISOString t.date)),
    ("type", JValue.jstr (txTypeString t.type))]

/-- `JSON.stringify` of a budget. -/
def encodeBudget (b : Budget) : JValue :=
  JValue.jobj [("id", JValue.jstr b.id), ("category", JValue.jstr b.category),
    ("limit", JValue.jnum b.limit), ("spent", JValue.jnum b.spent),
    ("period", JValue.jstr (budgetPeriodString b.period))]

/-- Property lookup on a parsed JSON object. -/
def jget (fields : List (String × JValue)) (key : String) : Option JValue :=
  (fields.find? (fun p => p.1 = key)).map Prod.snd

/-- The account record read back from the parsed snapshot. -/
def decodeAccount : JValue → Option Account
  | JValue.jobj fields =>
      match jget fields "id", jget fields "name", jget fields "type",
          jget fields "balance", jget fields "currency" with
      | some (JValue.jstr i), some (JValue.jstr n), some (JValue.jstr ty),
          some (JValue.jnum b), some (JValue.jstr c) =>
          (decodeAccountType ty).map (fun typ => ⟨i, n, typ, b, c⟩)
      | _, _, _, _, _ => none
  | _ => none

/-- The transaction record read back from the parsed snapshot: no reviver is
configured, so a string `date` stays a string (`DateField.asString`). -/
def decodeDynTransaction : JValue → Option DynTransaction
  | JValue.jobj fields =>
      match jget fields "id", jget fields "accountId", jget fields "amount",
          jget fields "description", jget fields "category", jget fields "date",
          jget fields "type" with
      | some (JValue.jstr i), some (JValue.jstr acc), some (JValue.jnum amt),
          some (JValue.jstr de), some (JValue.jstr cat), some (JValue.jstr da),
          some (JValue.jstr ty) =>
          (decodeTxType ty).map
            (fun typ => ⟨i, acc, amt, de, cat, DateField.asString da, typ⟩)
      | _, _, _, _, _, _, _ => none
  | _ => none

/-- The budget record read back from the parsed snapshot. -/
def decodeBudget : JValue → Option Budget
  | JValue.jobj fields =>
      match jget fields "id", jget fields "category", jget fields "limit",
          jget fields "spent", jget fields "period" with
      | some (JValue.jstr i), some (JValue.jstr cat), some (JValue.jnum li),
          some (JValue.jnum sp), some (JValue.jstr pe) =>
          (decodeBudgetPeriod pe).map (fun per => ⟨i, cat, li, sp, per⟩)
      | _, _, _, _, _ => none
  | _ => none

def decodeArray {α : Type} (dec : JValue → Option α) : List JValue → Option (List α)
  | [] => some []
  | v :: vs =>
      match dec v, decodeArray dec vs with
      | some a, some rest => some (a :: rest)
      | _, _ => none

/-- The `partialize` output as a JSON value: exactly the three data keys. -/
def partializeState (s : PortfolioState) : JValue :=
  JValue.jobj [("accounts", JValue.jarr (s.accounts.map encodeAccount)),
    ("transactions", JValue.jarr (s.transactions.map encodeTransaction)),
    ("budgets", JValue.jarr (s.budgets.map encodeBudget))]

/-- Rehydration: parse the persisted snapshot back into the three collections
(the `stringify`/`parse` text round-trip is the identity on the JSON value). -/
def rehydrateState : JValue → Option RehydratedState
  | JValue.jobj [("accounts", JValue.jarr as), ("transactions", JValue.jarr ts),
      ("budgets", JValue.jarr bs)] =>
      match decodeArray decodeAccount as, decodeArray decodeDynTransaction ts,
          decodeArray decodeBudget bs with
      | some accounts, some transactions, some budgets =>
          some ⟨accounts, transactions, budgets⟩
      | _, _, _ => none
  | _ => none

theorem decodeAccount_encodeAccount (a : Account) :
    decodeAccount (encodeAccount a) = some a := by
  rcases a with ⟨i, n, ty, b, c⟩
  cases ty <;> rfl

theorem decodeDynTransaction_encodeTransaction (t : Transaction) :
    decodeDynTransaction (encodeTransaction t) =
      some ⟨t.id, t.accountId, t.amount, t.description, t.category,
        DateField.asString (toISOString t.date), t.type⟩ := by
  rcases t with ⟨i, acc, amt, de, cat, da, ty⟩
  cases ty <;> rfl

theorem decodeBudget_encodeBudget (b : Budget) :
    decodeBudget (encodeBudget b) = some b := by
  rcases b with ⟨i, cat, li, sp, pe⟩
  cases pe <;> rfl

theorem decodeArray_accounts (l : List Account) :
    decodeArray decodeAccount (l.map encodeAccount) = some l := by
  induction l with
  | nil => rfl
  | cons a as ih => simp [decodeArray, decodeAccount_encodeAccount, ih]

theorem decodeArray_transactions (l : List Transaction) :
    decodeArray decodeDynTransaction (l.map encodeTransaction) =
      some (l.map (fun t =>
        ⟨t.id, t.accountId, t.amount, t.description, t.category,
          DateField.asString (toISOString t.date), t.type⟩)) := by
  induction l with
  | nil => rfl
  | cons t ts ih => simp [decodeArray, decodeDynTransaction_encodeTransaction, ih]

theorem decodeArray_budgets (l : List Budget) :
    decodeArray decodeBudget (l.map encodeBudget) = some l := by
  induction l with
  | nil => rfl
  | cons b bs ih => simp [decodeArray, decodeBudget_encodeBudget, ih]

/-- What the persistence round trip actually produces: accounts and budgets
come back identical; a transaction comes back with every field identical
except `date`, which is now the ISO string instead of a `Date`. -/
theorem rehydrate_partialize (s : PortfolioState) :
    rehydrateState (partializeState s) =
      some ⟨s.accounts,
        s.transactions.map (fun t =>
          ⟨t.id, t.accountId, t.amount, t.description, t.category,
            DateField.asString (toISOString t.date), t.type⟩),
        s.budgets⟩ := by
  rw [partializeState]
  simp [rehydrateState, decodeArray_accounts, decodeArray_transactions,
    decodeArray_budgets]

/-- C4 counterexample: for a store holding one transaction dated at the epoch,
rehydration does not reproduce the original collections — the date comes back
as a string, not a `Date` value. -/
theorem C4_counterexample :
    ¬ rehydrateState (partializeState
          ⟨[], [⟨"t1", "1", -5, "d", "c", 0, TxType.expense⟩], []⟩) =
        some ⟨[], [toDyn ⟨"t1", "1", -5, "d", "c", 0, TxType.expense⟩], []⟩ := by
  rw [rehydrate_partialize]
  intro h
  simp [toDyn] at h

/-- C4 (amended): persisting and rehydrating reproduces the accounts and
budgets identically, and every transaction identically in all fields except
`date`, whose `Date` value comes back as its ISO-8601 string serialization. -/
theorem C4_roundtrip_dates_stringified (s : PortfolioState) :
    rehydrateState (partializeState s) =
      some ⟨s.accounts,
        s.transactions.map (fun t =>
          ⟨t.id, t.accountId, t.amount, t.description, t.category,
            DateField.asString (toISOString t.date), t.type⟩),
        s.budgets⟩ :=
  rehydrate_partialize s

end Portfolio
